import Mathlib

/-!
Shallow embedding of `heymans/model/_base_model.py` (class `BaseModel`):
message conversion, length/token accounting, the `predict` state update and
the `predict_multiple` dispatch, together with theorems settling the
specification claims about them.
-/

namespace Sigmund

/-- The role/content dictionary produced by `convert_message`. -/
structure ChatRecord where
  role : String
  content : String
deriving DecidableEq

/-- A Python value passed to `convert_message`: a plain string, one of the
four tagged langchain message variants (each carrying its `content` text), or
any other object (carried as its textual representation). -/
inductive PyObj where
  | str (s : String)
  | system (content : String)
  | ai (content : String)
  | human (content : String)
  | function (content : String)
  | other (rep : String)
deriving DecidableEq

/-- `BaseModel.convert_message`: a plain string becomes a user record; each
tagged variant maps to its role with its own content; anything else raises
`ValueError` (modelled as `Except.error`). -/
def convert_message : PyObj → Except String ChatRecord
  | PyObj.str s => Except.ok ⟨"user", s⟩
  | PyObj.system c => Except.ok ⟨"system", c⟩
  | PyObj.ai c => Except.ok ⟨"assistant", c⟩
  | PyObj.human c => Except.ok ⟨"user", c⟩
  | PyObj.function c => Except.ok ⟨"tool", c⟩
  | PyObj.other rep => Except.error ("Unknown message type: " ++ rep)

/-- An element of a messages list as read by `messages_length`: either a
tagged message (content read via the `content` attribute) or a role/content
dictionary (content read via the `content` key). -/
inductive CMsg where
  | system (content : String)
  | ai (content : String)
  | human (content : String)
  | function (content : String)
  | record (rec : ChatRecord)
deriving DecidableEq

/-- The content text of a messages-list element. -/
def CMsg.content : CMsg → String
  | CMsg.system c => c
  | CMsg.ai c => c
  | CMsg.human c => c
  | CMsg.function c => c
  | CMsg.record r => r.content

/-- The `messages` argument of `messages_length` and `predict`: either a
plain string or a list of messages. -/
inductive Messages where
  | str (s : String)
  | list (ms : List CMsg)
deriving DecidableEq

/-- `BaseModel.messages_length`: the length of a string, or the sum of the
content lengths of a list of messages. -/
def messages_length : Messages → Nat
  | Messages.str s => s.length
  | Messages.list ms => (ms.map (fun m => m.content.length)).sum

/-- `BaseModel.characters_per_token`: fixed divisor approximating tokens. -/
def characters_per_token : Nat := 4

/-- `BaseModel.supports_not_done_yet` class attribute. -/
def supports_not_done_yet : Bool := true

/-- `BaseModel.supports_tool_feedback` class attribute. -/
def supports_tool_feedback : Bool := true

/-- The reply extracted from a model response: a string, or some non-string
value (whose length counts as 0 in token accounting). -/
inductive Reply where
  | str (s : String)
  | other
deriving DecidableEq

/-- A provider response object; `get_response` reads its `content`. -/
structure Response where
  content : Reply
deriving DecidableEq

/-- `BaseModel.get_response`: returns `response.content`. -/
def get_response (response : Response) : Reply := response.content

/-- `len(reply) if isinstance(reply, str) else 0` from `predict`. -/
def reply_len : Reply → Nat
  | Reply.str s => s.length
  | Reply.other => 0

/-- The mutable state of a `BaseModel` instance: the three constructor-stored
arguments and the three usage counters. The counters are Python integers,
modelled as `Int`. -/
structure BaseModel where
  heymans : String
  tools : Option (List String)
  tool_choice : String
  total_tokens_consumed : Int
  prompt_tokens_consumed : Int
  completion_tokens_consumed : Int
deriving DecidableEq

/-- `BaseModel.__init__`: stores the arguments and zeroes the counters. -/
def BaseModel.init (heymans : String) (tools : Option (List String))
    (tool_choice : String) : BaseModel :=
  { heymans := heymans
    tools := tools
    tool_choice := tool_choice
    total_tokens_consumed := 0
    prompt_tokens_consumed := 0
    completion_tokens_consumed := 0 }

/-- `BaseModel.predict`: the reply is `get_response` of the provider response
(the abstract `invoke` result, passed in explicitly); when `track_tokens` is
true the three counters grow by the integer-division token estimates. Returns
the updated state and the reply. -/
def predict (m : BaseModel) (messages : Messages) (response : Response)
    (track_tokens : Bool) : BaseModel × Reply :=
  let reply := get_response response
  let msg_len := messages_length messages
  let prompt_tokens := msg_len / characters_per_token
  let rlen := reply_len reply
  if track_tokens then
    let completion_tokens := rlen / characters_per_token
    let total_tokens := prompt_tokens + completion_tokens
    ({ m with
        total_tokens_consumed := m.total_tokens_consumed + (total_tokens : Int)
        prompt_tokens_consumed := m.prompt_tokens_consumed + (prompt_tokens : Int)
        completion_tokens_consumed :=
          m.completion_tokens_consumed + (completion_tokens : Int) },
     reply)
  else
    (m, reply)

/-- The calling environment seen by `predict_multiple`: whether
`asyncio.get_event_loop()` succeeds, and whether that loop is running. -/
structure AsyncEnv where
  has_loop : Bool
  loop_running : Bool
deriving DecidableEq

/-- The branch choice of `predict_multiple`: async unless an event loop
already exists and is running (a fresh loop is created when none exists). -/
def use_async (env : AsyncEnv) : Bool :=
  if env.has_loop then !env.loop_running else true

/-- The list comprehension `[self.convert_message(p) for p in prompts]` with
`ValueError` propagation: the first failing conversion aborts the whole call. -/
def convert_all : List PyObj → Except String (List ChatRecord)
  | [] => Except.ok []
  | p :: ps =>
    match convert_message p with
    | Except.error e => Except.error e
    | Except.ok r =>
      match convert_all ps with
      | Except.error e => Except.error e
      | Except.ok rs => Except.ok (r :: rs)

/-- `BaseModel.predict_multiple`: wraps each prompt as a singleton message
list via `convert_message`, then either maps `invoke` synchronously or
gathers `async_invoke` results (order-preserving, as `asyncio.gather` is),
applying `get_response` to each; which branch runs depends only on the
calling environment. -/
def predict_multiple (env : AsyncEnv)
    (invoke async_invoke : List ChatRecord → Response)
    (prompts : List PyObj) : Except String (List Reply) :=
  match convert_all prompts with
  | Except.error e => Except.error e
  | Except.ok rs =>
    let ps := rs.map (fun r => [r])
    if use_async env then
      Except.ok ((ps.map async_invoke).map get_response)
    else
      Except.ok (ps.map (fun p => get_response (invoke p)))

/-- One operation on a `BaseModel` instance: the methods of the class, with
the data each needs supplied explicitly (provider responses stand in for the
abstract `invoke`/`async_invoke` results). -/
inductive Op where
  | predictOp (messages : Messages) (response : Response) (track_tokens : Bool)
  | predictMultipleOp (env : AsyncEnv) (prompts : List PyObj)
  | convertMessageOp (message : PyObj)
  | messagesLengthOp (messages : Messages)
  | getResponseOp (response : Response)
  | toolsOp
  | invalidToolOp

/-- The state effect of one operation: only `predict` assigns to the
counters; every other method leaves the instance unchanged (in particular
`predict_multiple` never touches the counters). -/
def applyOp (m : BaseModel) : Op → BaseModel
  | Op.predictOp messages response track_tokens =>
      (predict m messages response track_tokens).1
  | Op.predictMultipleOp _ _ => m
  | Op.convertMessageOp _ => m
  | Op.messagesLengthOp _ => m
  | Op.getResponseOp _ => m
  | Op.toolsOp => m
  | Op.invalidToolOp => m

/-- A sequence of operations applied in order to an instance. -/
def run (m : BaseModel) (ops : List Op) : BaseModel :=
  ops.foldl applyOp m

/-- The counter invariant: total equals prompt plus completion, and all
three counters are non-negative. -/
def counters_ok (m : BaseModel) : Prop :=
  m.total_tokens_consumed
      = m.prompt_tokens_consumed + m.completion_tokens_consumed ∧
  0 ≤ m.prompt_tokens_consumed ∧
  0 ≤ m.completion_tokens_consumed ∧
  0 ≤ m.total_tokens_consumed

end Sigmund

namespace Sigmund

/-- C1: convert_message maps each of the four supported tagged variants to a
role/content record with the variant's own content and the role determined by
the variant: system, assistant, user, tool. -/
theorem convert_message_tagged_roles (c : String) :
    convert_message (PyObj.system c) = Except.ok ⟨"system", c⟩ ∧
    convert_message (PyObj.ai c) = Except.ok ⟨"assistant", c⟩ ∧
    convert_message (PyObj.human c) = Except.ok ⟨"user", c⟩ ∧
    convert_message (PyObj.function c) = Except.ok ⟨"tool", c⟩ :=
  ⟨rfl, rfl, rfl, rfl⟩

/-- C6: a freshly constructed instance, whatever the constructor arguments,
has all three usage counters equal to zero. -/
theorem init_counters_zero (heymans : String) (tools : Option (List String))
    (tool_choice : String) :
    (BaseModel.init heymans tools tool_choice).total_tokens_consumed = 0 ∧
    (BaseModel.init heymans tools tool_choice).prompt_tokens_consumed = 0 ∧
    (BaseModel.init heymans tools tool_choice).completion_tokens_consumed = 0 :=
  ⟨rfl, rfl, rfl⟩

/-- C8: convert_message accepts a plain string and returns the record with
role user and the string itself as content, never an error. -/
theorem convert_message_plain_string (s : String) :
    convert_message (PyObj.str s) = Except.ok ⟨"user", s⟩ :=
  rfl

/-- C9: predict with track_tokens set to false leaves all three usage
counters unchanged, and returns the same reply as the call with
track_tokens set to true. -/
theorem predict_no_track_frame (m : BaseModel) (messages : Messages)
    (response : Response) :
    (predict m messages response false).1.total_tokens_consumed
        = m.total_tokens_consumed ∧
    (predict m messages response false).1.prompt_tokens_consumed
        = m.prompt_tokens_consumed ∧
    (predict m messages response false).1.completion_tokens_consumed
        = m.completion_tokens_consumed ∧
    (predict m messages response false).2 = (predict m messages response true).2 :=
  ⟨rfl, rfl, rfl, rfl⟩

/-- C2 counterexample: the plain string input "hello" is not one of the four
supported tagged variants, yet convert_message returns a role/content record
for it instead of signalling an unrecognized-type error. -/
theorem convert_message_string_refutes_c2 :
    convert_message (PyObj.str "hello") = Except.ok ⟨"user", "hello"⟩ :=
  rfl

/-- C2 amended: for every input that is neither a plain string nor one of the
four supported tagged variants, convert_message signals an unrecognized-type
error; for the four variants (and for plain strings) it always returns a
record and never raises. -/
theorem convert_message_totality (rep c s : String) :
    convert_message (PyObj.other rep)
        = Except.error ("Unknown message type: " ++ rep) ∧
    convert_message (PyObj.system c) = Except.ok ⟨"system", c⟩ ∧
    convert_message (PyObj.ai c) = Except.ok ⟨"assistant", c⟩ ∧
    convert_message (PyObj.human c) = Except.ok ⟨"user", c⟩ ∧
    convert_message (PyObj.function c) = Except.ok ⟨"tool", c⟩ ∧
    convert_message (PyObj.str s) = Except.ok ⟨"user", s⟩ :=
  ⟨rfl, rfl, rfl, rfl, rfl, rfl⟩

/-- C3: with track_tokens true, predict adds messages_length // 4 prompt
tokens and reply_len // 4 completion tokens (reply_len is the string length
of a string reply and 0 otherwise), and the total added is their sum;
characters_per_token is the fixed constant 4; messages_length of a string is
its character count and of a list is the sum of its elements' content
lengths. -/
theorem predict_token_accounting (m : BaseModel) (messages : Messages)
    (response : Response) (s t : String) (ms : List CMsg) :
    characters_per_token = 4 ∧
    messages_length (Messages.str s) = s.length ∧
    messages_length (Messages.list ms)
        = (ms.map (fun x => x.content.length)).sum ∧
    reply_len (Reply.str t) = t.length ∧
    reply_len Reply.other = 0 ∧
    (predict m messages response true).1.prompt_tokens_consumed
        = m.prompt_tokens_consumed
          + ((messages_length messages / 4 : Nat) : Int) ∧
    (predict m messages response true).1.completion_tokens_consumed
        = m.completion_tokens_consumed
          + ((reply_len (get_response response) / 4 : Nat) : Int) ∧
    (predict m messages response true).1.total_tokens_consumed
        = m.total_tokens_consumed
          + (((messages_length messages / 4
              + reply_len (get_response response) / 4 : Nat)) : Int) :=
  ⟨rfl, rfl, rfl, rfl, rfl, rfl, rfl, rfl⟩

/-- The counter updates performed by predict with track_tokens true, read off
the definition. -/
theorem applyOp_predict_true (m : BaseModel) (messages : Messages)
    (response : Response) :
    (applyOp m (Op.predictOp messages response true)).prompt_tokens_consumed
        = m.prompt_tokens_consumed
          + ((messages_length messages / characters_per_token : Nat) : Int) ∧
    (applyOp m (Op.predictOp messages response true)).completion_tokens_consumed
        = m.completion_tokens_consumed
          + ((reply_len (get_response response) / characters_per_token : Nat) : Int) ∧
    (applyOp m (Op.predictOp messages response true)).total_tokens_consumed
        = m.total_tokens_consumed
          + ((messages_length messages / characters_per_token
              + reply_len (get_response response) / characters_per_token : Nat) : Int) :=
  ⟨rfl, rfl, rfl⟩

/-- C4: the counter invariant (total equals prompt plus completion, and all
three counters non-negative) holds after construction with any arguments and
is preserved by every operation of the class, in particular by predict with
either value of track_tokens. -/
theorem counters_invariant (heymans : String) (tools : Option (List String))
    (tool_choice : String) (m : BaseModel) (op : Op) (h : counters_ok m) :
    counters_ok (BaseModel.init heymans tools tool_choice) ∧
    counters_ok (applyOp m op) := by
  refine ⟨⟨rfl, le_refl 0, le_refl 0, le_refl 0⟩, ?_⟩
  obtain ⟨h1, h2, h3, h4⟩ := h
  cases op with
  | predictOp messages response track =>
      cases track with
      | false => exact ⟨h1, h2, h3, h4⟩
      | true =>
          obtain ⟨e1, e2, e3⟩ := applyOp_predict_true m messages response
          simp only [characters_per_token] at e1 e2 e3
          refine ⟨?_, ?_, ?_, ?_⟩ <;> simp only [e1, e2, e3] <;> omega
  | predictMultipleOp env prompts => exact ⟨h1, h2, h3, h4⟩
  | convertMessageOp message => exact ⟨h1, h2, h3, h4⟩
  | messagesLengthOp messages => exact ⟨h1, h2, h3, h4⟩
  | getResponseOp response => exact ⟨h1, h2, h3, h4⟩
  | toolsOp => exact ⟨h1, h2, h3, h4⟩
  | invalidToolOp => exact ⟨h1, h2, h3, h4⟩

/-- Witness for C4 at concrete inputs. -/
theorem counters_invariant_witness :
    counters_ok (BaseModel.init "x" none "auto") ∧
    (counters_ok (BaseModel.init "h" none "auto") ∧
     counters_ok (applyOp (BaseModel.init "x" none "auto")
        (Op.predictOp (Messages.str "abcdefgh") ⟨Reply.str "xyzxyz"⟩ true))) :=
  ⟨⟨rfl, le_refl 0, le_refl 0, le_refl 0⟩,
   counters_invariant "h" none "auto" (BaseModel.init "x" none "auto")
     (Op.predictOp (Messages.str "abcdefgh") ⟨Reply.str "xyzxyz"⟩ true)
     ⟨rfl, le_refl 0, le_refl 0, le_refl 0⟩⟩

/-- One operation never decreases any of the three counters. -/
theorem applyOp_counters_le (m : BaseModel) (op : Op) :
    m.prompt_tokens_consumed ≤ (applyOp m op).prompt_tokens_consumed ∧
    m.completion_tokens_consumed
        ≤ (applyOp m op).completion_tokens_consumed ∧
    m.total_tokens_consumed ≤ (applyOp m op).total_tokens_consumed := by
  cases op with
  | predictOp messages response track =>
      cases track with
      | false => exact ⟨le_refl _, le_refl _, le_refl _⟩
      | true =>
          obtain ⟨e1, e2, e3⟩ := applyOp_predict_true m messages response
          simp only [characters_per_token] at e1 e2 e3
          refine ⟨?_, ?_, ?_⟩ <;> simp only [e1, e2, e3] <;> omega
  | predictMultipleOp env prompts => exact ⟨le_refl _, le_refl _, le_refl _⟩
  | convertMessageOp message => exact ⟨le_refl _, le_refl _, le_refl _⟩
  | messagesLengthOp messages => exact ⟨le_refl _, le_refl _, le_refl _⟩
  | getResponseOp response => exact ⟨le_refl _, le_refl _, le_refl _⟩
  | toolsOp => exact ⟨le_refl _, le_refl _, le_refl _⟩
  | invalidToolOp => exact ⟨le_refl _, le_refl _, le_refl _⟩

/-- C5: the three usage counters are monotonically increasing accumulators:
over any sequence of operations on an instance, no operation ever decreases
(or resets) any of the three counters. -/
theorem counters_monotone (m : BaseModel) (ops : List Op) :
    m.prompt_tokens_consumed ≤ (run m ops).prompt_tokens_consumed ∧
    m.completion_tokens_consumed ≤ (run m ops).completion_tokens_consumed ∧
    m.total_tokens_consumed ≤ (run m ops).total_tokens_consumed := by
  induction ops generalizing m with
  | nil => exact ⟨le_refl _, le_refl _, le_refl _⟩
  | cons op ops ih =>
      have hstep := applyOp_counters_le m op
      have hrest := ih (applyOp m op)
      simp only [run, List.foldl_cons] at hrest ⊢
      exact ⟨le_trans hstep.1 hrest.1, le_trans hstep.2.1 hrest.2.1,
             le_trans hstep.2.2 hrest.2.2⟩

/-- C7: which branch predict_multiple takes is governed entirely by the
calling environment (whether an event loop exists and is running), and when
async_invoke agrees with invoke on every singleton message list the two
branches return the same list of responses: the result is independent of the
environment. -/
theorem predict_multiple_branches_agree
    (invoke async_invoke : List ChatRecord → Response)
    (h : ∀ r : ChatRecord, async_invoke [r] = invoke [r])
    (prompts : List PyObj) (env1 env2 : AsyncEnv) :
    predict_multiple env1 invoke async_invoke prompts
      = predict_multiple env2 invoke async_invoke prompts := by
  have key : ∀ rs : List ChatRecord,
      ((rs.map (fun r => [r])).map async_invoke).map get_response
        = (rs.map (fun r => [r])).map (fun p => get_response (invoke p)) := by
    intro rs
    induction rs with
    | nil => rfl
    | cons r rs ih => simp only [List.map_cons, ih, h r]
  unfold predict_multiple
  cases hc : convert_all prompts with
  | error e => rfl
  | ok rs =>
      simp only [key rs]
      cases use_async env1 <;> cases use_async env2 <;> rfl

/-- Witness for C7 at concrete inputs. -/
theorem predict_multiple_branches_agree_witness :
    (∀ r : ChatRecord,
      (fun _ : List ChatRecord => Response.mk (Reply.str "ok")) [r]
        = (fun _ : List ChatRecord => Response.mk (Reply.str "ok")) [r]) ∧
    predict_multiple ⟨true, true⟩
        (fun _ => Response.mk (Reply.str "ok"))
        (fun _ => Response.mk (Reply.str "ok"))
        [PyObj.str "a", PyObj.human "b"]
      = predict_multiple ⟨false, false⟩
        (fun _ => Response.mk (Reply.str "ok"))
        (fun _ => Response.mk (Reply.str "ok"))
        [PyObj.str "a", PyObj.human "b"] :=
  ⟨fun _ => rfl,
   predict_multiple_branches_agree
     (fun _ => Response.mk (Reply.str "ok"))
     (fun _ => Response.mk (Reply.str "ok"))
     (fun _ => rfl)
     [PyObj.str "a", PyObj.human "b"] ⟨true, true⟩ ⟨false, false⟩⟩

/-- A successful convert_all produces one record per prompt. -/
theorem convert_all_ok_length (prompts : List PyObj) (rs : List ChatRecord)
    (h : convert_all prompts = Except.ok rs) : rs.length = prompts.length := by
  induction prompts generalizing rs with
  | nil =>
      unfold convert_all at h
      cases h
      rfl
  | cons p ps ih =>
      unfold convert_all at h
      cases hc : convert_message p with
      | error e => rw [hc] at h; exact absurd h (by simp)
      | ok r =>
          rw [hc] at h
          cases hca : convert_all ps with
          | error e => rw [hca] at h; exact absurd h (by simp)
          | ok rs2 =>
              rw [hca] at h
              cases h
              simp only [List.length_cons, ih rs2 hca]

/-- A successful convert_all converts prompts pointwise, in order. -/
theorem convert_all_ok_get (prompts : List PyObj) (rs : List ChatRecord)
    (h : convert_all prompts = Except.ok rs) :
    ∀ i (h1 : i < prompts.length) (h2 : i < rs.length),
      convert_message (prompts.get ⟨i, h1⟩) = Except.ok (rs.get ⟨i, h2⟩) := by
  induction prompts generalizing rs with
  | nil => intro i h1 h2; exact absurd h1 (by simp)
  | cons p ps ih =>
      unfold convert_all at h
      cases hc : convert_message p with
      | error e => rw [hc] at h; exact absurd h (by simp)
      | ok r =>
          rw [hc] at h
          cases hca : convert_all ps with
          | error e => rw [hca] at h; exact absurd h (by simp)
          | ok rs2 =>
              rw [hca] at h
              cases h
              intro i h1 h2
              cases i with
              | zero => exact hc
              | succ j =>
                  simp only [List.length_cons] at h1 h2
                  exact ih rs2 hca j (by omega) (by omega)

/-- C10: when every prompt converts, predict_multiple succeeds with a list of
the same length as the input whose i-th element is the response (through
get_response and the branch-selected invoke function) for the i-th prompt's
conversion wrapped as a singleton message list; the conversions themselves
are pointwise and order-preserving. -/
theorem predict_multiple_order (env : AsyncEnv)
    (invoke async_invoke : List ChatRecord → Response)
    (prompts : List PyObj) (rs : List ChatRecord)
    (h : convert_all prompts = Except.ok rs) :
    ∃ l : List Reply,
      predict_multiple env invoke async_invoke prompts = Except.ok l ∧
      l.length = prompts.length ∧
      (∀ i (h1 : i < l.length) (h2 : i < rs.length),
        l.get ⟨i, h1⟩ = get_response
          ((if use_async env = true then async_invoke else invoke)
            [rs.get ⟨i, h2⟩])) ∧
      (∀ i (h1 : i < prompts.length) (h2 : i < rs.length),
        convert_message (prompts.get ⟨i, h1⟩) = Except.ok (rs.get ⟨i, h2⟩)) := by
  refine ⟨rs.map (fun r => get_response
      ((if use_async env = true then async_invoke else invoke) [r])),
    ?_, ?_, ?_, convert_all_ok_get prompts rs h⟩
  · unfold predict_multiple
    rw [h]
    cases hu : use_async env <;>
      simp only [hu, Bool.false_eq_true, if_false, if_true, List.map_map] <;> rfl
  · simp only [List.length_map, convert_all_ok_length prompts rs h]
  · intro i h1 h2
    simp only [List.get_map]

/-- Witness for C10 at concrete inputs. -/
theorem predict_multiple_order_witness :
    convert_all [PyObj.str "hi", PyObj.system "yo"]
        = Except.ok [⟨"user", "hi"⟩, ⟨"system", "yo"⟩] ∧
    (∃ l : List Reply,
      predict_multiple ⟨true, false⟩
          (fun _ => Response.mk Reply.other)
          (fun _ => Response.mk (Reply.str "r"))
          [PyObj.str "hi", PyObj.system "yo"] = Except.ok l ∧
      l.length = ([PyObj.str "hi", PyObj.system "yo"] : List PyObj).length ∧
      (∀ i (h1 : i < l.length)
          (h2 : i < ([⟨"user", "hi"⟩, ⟨"system", "yo"⟩] : List ChatRecord).length),
        l.get ⟨i, h1⟩ = get_response
          ((if use_async ⟨true, false⟩ = true
              then (fun _ => Response.mk (Reply.str "r"))
              else (fun _ => Response.mk Reply.other))
            [([⟨"user", "hi"⟩, ⟨"system", "yo"⟩] : List ChatRecord).get ⟨i, h2⟩])) ∧
      (∀ i (h1 : i < ([PyObj.str "hi", PyObj.system "yo"] : List PyObj).length)
          (h2 : i < ([⟨"user", "hi"⟩, ⟨"system", "yo"⟩] : List ChatRecord).length),
        convert_message (([PyObj.str "hi", PyObj.system "yo"] : List PyObj).get ⟨i, h1⟩)
          = Except.ok (([⟨"user", "hi"⟩, ⟨"system", "yo"⟩] : List ChatRecord).get ⟨i, h2⟩))) :=
  ⟨rfl,
   predict_multiple_order ⟨true, false⟩
     (fun _ => Response.mk Reply.other)
     (fun _ => Response.mk (Reply.str "r"))
     [PyObj.str "hi", PyObj.system "yo"]
     [⟨"user", "hi"⟩, ⟨"system", "yo"⟩] rfl⟩

end Sigmund
